import Mathlib

/-!
Shallow embedding of the GitLab merge-request trigger relay (main.go).

The remote platform is modelled by an `Oracle` of response functions; every
remote call the program makes is recorded as an `ApiCall` in a trace.  The
webhook handler returns the HTTP status and message it decides, the list of
remote calls made before that response is written, and the list of deferred
operations (Go `defer` statements) that run after the response, in their
LIFO execution order.
-/

/-- Mirrors Go struct `project`. -/
structure Project where
  name : String
  webURL : String
  httpURL : String
deriving Repr, DecidableEq

/-- Mirrors Go struct `pipeline`. -/
structure Pipeline where
  id : Int
deriving Repr, DecidableEq

/-- Mirrors Go struct `commit`. -/
structure Commit where
  id : String
  message : String
  lastPipeline : Option Pipeline
  timestamp : String
deriving Repr, DecidableEq

/-- Mirrors Go struct `job`. -/
structure Job where
  id : Int
  name : String
deriving Repr, DecidableEq

/-- Mirrors Go struct `objectAttributes`. -/
structure ObjectAttributes where
  id : Int
  iid : Int
  targetBranch : String
  sourceBranch : String
  sourceProjectID : Int
  state : String
  mergeStatus : String
  source : Project
  target : Project
  lastCommit : Commit
  action : String
  workInProgress : Bool
deriving Repr, DecidableEq

/-- Mirrors Go struct `mergeRequest`. -/
structure MergeRequest where
  shouldRemoveSourceBranch : Bool
  forceRemoveSourceBranch : Bool
deriving Repr, DecidableEq

/-- Mirrors Go struct `webhookRequest`. -/
structure WebhookRequest where
  objectKind : String
  attributes : ObjectAttributes
deriving Repr, DecidableEq

/-- Mirrors Go struct `tokenResponse`. -/
structure TokenResponse where
  id : Int
  deletedAt : String
  token : String
  description : String
deriving Repr, DecidableEq

/-- The command-line configuration flags the handler reads. -/
structure Config where
  triggerToken : String
  gitlabURL : String
  shouldTriggerMerged : Bool
  removeSourceExceptions : String
deriving Repr, DecidableEq

/-- One remote API call, identified by its kind and arguments. -/
inductive ApiCall where
  | getMergeRequest (projectID : Int) (mrIID : Int)
  | getCommit (projectID : Int) (commitID : String)
  | listTriggers (projectID : Int)
  | createTrigger (projectID : Int)
  | triggerPipeline (projectID : Int) (ref : String) (tok : String)
      (vars : List (String × String))
  | listPipelines (projectID : Int) (ref : String)
  | listPendingJobs (projectID : Int) (pipelineID : Int)
  | cancelJob (projectID : Int) (jobID : Int)
  | updateMergeRequest (projectID : Int) (mrIID : Int)
deriving Repr, DecidableEq

/-- A deferred operation registered by a Go `defer` statement in the handler. -/
inductive DeferredOp where
  | cancelRedundant (projectID : Int) (ref : String) (excludePipeline : Int)
  | setRemoveSourceBranch (projectID : Int) (mrIID : Int) (sourceBranch : String)
deriving Repr, DecidableEq

/-- Responses of the remote platform to each kind of API call.  Results of
`cancelBuild` and `setRemoveSourceBranchForMR` are only logged by the Go code,
never branched on, so the embedding records the calls but ignores these two
response functions. -/
structure Oracle where
  getMergeRequest : Int → Int → Except String MergeRequest
  getCommit : Int → String → Except String Commit
  listTokens : Int → Except String (List TokenResponse)
  createToken : Int → Except String TokenResponse
  runTrigger : Int → String → String → List (String × String) → Except String Pipeline
  getPipelines : Int → String → Except String (List Pipeline)
  getPendingBuilds : Int → Int → Except String (List Job)
  cancelBuild : Int → Int → Except String Job
  setRemoveSourceBranchForMR : Int → Int → Except String MergeRequest

/-- Mirrors Go `contains(arr []string, str string)`. -/
def contains : List String → String → Bool
  | [], _ => false
  | a :: rest, str => if a = str then true else contains rest str

/-- The loop body of Go `getTriggerToken`: skip entries with a non-empty
`DeletedAt` or an empty `Token`, return the first remaining entry. -/
def findUsableToken : List TokenResponse → Option TokenResponse
  | [] => none
  | tk :: rest =>
      if tk.deletedAt ≠ "" ∨ tk.token = "" then findUsableToken rest else some tk

/-- Mirrors Go `getTriggerToken(projectID)`: the resolved token (or error)
together with the remote calls made. -/
def getTriggerToken (cfg : Config) (o : Oracle) (projectID : Int) :
    Except String String × List ApiCall :=
  if cfg.triggerToken ≠ "" then
    (Except.ok cfg.triggerToken, [])
  else
    let found :=
      match o.listTokens projectID with
      | Except.ok toks => findUsableToken toks
      | Except.error _ => none
    match found with
    | some tk => (Except.ok tk.token, [ApiCall.listTriggers projectID])
    | none =>
      match o.createToken projectID with
      | Except.ok tk =>
          (Except.ok tk.token,
           [ApiCall.listTriggers projectID, ApiCall.createTrigger projectID])
      | Except.error e =>
          (Except.error e,
           [ApiCall.listTriggers projectID, ApiCall.createTrigger projectID])

/-- The `variables[...]` query parameters Go `runTrigger` puts in the trigger
URL, in source order. -/
def triggerVariables (webhook : WebhookRequest) : List (String × String) :=
  [("CI_MERGE_REQUEST", "true"),
   ("MR_SOURCE_BRANCH", webhook.attributes.sourceBranch),
   ("MR_TARGET_BRANCH", webhook.attributes.targetBranch),
   ("MR_ID", toString webhook.attributes.id),
   ("MR_IID", toString webhook.attributes.iid),
   ("MR_STATE", webhook.attributes.state)]

/-- The `pipelineBranch` local of Go `runTrigger`. -/
def pipelineRef (webhook : WebhookRequest) : String :=
  if webhook.attributes.state = "merged" then webhook.attributes.targetBranch
  else webhook.attributes.sourceBranch

/-- Mirrors Go `runTrigger(webhook, token)`: result and the trigger call made. -/
def runTrigger (o : Oracle) (webhook : WebhookRequest) (tok : String) :
    Except String Pipeline × List ApiCall :=
  (o.runTrigger webhook.attributes.sourceProjectID (pipelineRef webhook) tok
     (triggerVariables webhook),
   [ApiCall.triggerPipeline webhook.attributes.sourceProjectID
      (pipelineRef webhook) tok (triggerVariables webhook)])

/-- The calls one iteration of the Go `cancelRedundantBuilds` pipeline loop
makes for a (non-excluded) pipeline `p`: list its pending jobs, then cancel
each returned job; a listing error yields no cancellations for `p`. -/
def cancelPipelineJobs (o : Oracle) (projectID : Int) (p : Pipeline) :
    List ApiCall :=
  let builds :=
    match o.getPendingBuilds projectID p.id with
    | Except.ok bs => bs
    | Except.error _ => []
  ApiCall.listPendingJobs projectID p.id ::
    builds.map (fun b => ApiCall.cancelJob projectID b.id)

/-- Mirrors Go `cancelRedundantBuilds(projectID, ref, excludePipeline)`:
the full list of remote calls the sweep makes. -/
def cancelRedundantBuilds (o : Oracle) (projectID : Int) (ref : String)
    (excludePipeline : Int) : List ApiCall :=
  let pipelines :=
    match o.getPipelines projectID ref with
    | Except.ok ps => ps
    | Except.error _ => []
  ApiCall.listPipelines projectID ref ::
    (pipelines.filter (fun p => p.id ≠ excludePipeline)).flatMap
      (cancelPipelineJobs o projectID)

/-- Mirrors Go `setRemoveSourceBranchForMR_AndReport`: performs the update
call unless the source branch is in the exception list. -/
def setRemoveSourceBranchForMR_AndReport (cfg : Config) (projectID : Int)
    (mrIID : Int) (sourceBranch : String) : List ApiCall :=
  let splittedRemoveSourceExceptions := cfg.removeSourceExceptions.splitOn ","
  let isExceptionBranch := contains splittedRemoveSourceExceptions sourceBranch
  if isExceptionBranch = false then
    [ApiCall.updateMergeRequest projectID mrIID]
  else []

/-- Expands a deferred operation into the remote calls it performs. -/
def runDeferredOp (cfg : Config) (o : Oracle) : DeferredOp → List ApiCall
  | DeferredOp.cancelRedundant pid ref ex => cancelRedundantBuilds o pid ref ex
  | DeferredOp.setRemoveSourceBranch pid iid src =>
      setRemoveSourceBranchForMR_AndReport cfg pid iid src

/-- Outcome of handling one webhook request: HTTP status and message, the
remote calls made before the response is written, and the deferred operations
that run afterwards (in execution order). -/
structure HandlerResult where
  status : Nat
  message : String
  calls : List ApiCall
  deferredOps : List DeferredOp
deriving Repr, DecidableEq

/-- The `getMergeRequest` call the handler makes for an event. -/
def mrFetchCall (a : ObjectAttributes) : ApiCall :=
  ApiCall.getMergeRequest a.sourceProjectID a.iid

/-- The deferred remove-source-branch operation scheduled by the handler when
the action is `open` and the fetched MR does not already force removal. -/
def removeOpsFor (a : ObjectAttributes) (mr : MergeRequest) : List DeferredOp :=
  if a.action = "open" ∧ mr.forceRemoveSourceBranch ≠ true then
    [DeferredOp.setRemoveSourceBranch a.sourceProjectID a.iid a.sourceBranch]
  else []

/-- The handler from the work-in-progress check onward (lines 341-373 of
main.go), after the remove-source-branch defer has been registered. -/
def handlerTriggerPhase (cfg : Config) (o : Oracle) (webhook : WebhookRequest)
    (removeOps : List DeferredOp) : HandlerResult :=
  let a := webhook.attributes
  if a.workInProgress = true then
    ⟨202, "Work In Progress - skipping build", [mrFetchCall a], removeOps⟩
  else
    let calls1 := [mrFetchCall a, ApiCall.getCommit a.sourceProjectID a.lastCommit.id]
    match o.getCommit a.sourceProjectID a.lastCommit.id with
    | Except.error e =>
        ⟨500, "error getting details of the commit:" ++ e, calls1, removeOps⟩
    | Except.ok c =>
      match c.lastPipeline with
      | some p =>
          ⟨200,
           "commit: " ++ a.lastCommit.id ++ " already has associated pipeline: "
             ++ toString p.id,
           calls1,
           DeferredOp.cancelRedundant a.sourceProjectID a.sourceBranch p.id
             :: removeOps⟩
      | none =>
        let tk := getTriggerToken cfg o a.sourceProjectID
        let calls2 := calls1 ++ tk.2
        match tk.1 with
        | Except.error e =>
            ⟨500, "error getting trigger token - " ++ e, calls2, removeOps⟩
        | Except.ok tok =>
          let tr := runTrigger o webhook tok
          let calls3 := calls2 ++ tr.2
          match tr.1 with
          | Except.error e =>
              ⟨500, "error triggering pipeline - " ++ e, calls3, removeOps⟩
          | Except.ok p =>
              ⟨201, "created pipeline id: " ++ toString p.id, calls3,
               DeferredOp.cancelRedundant a.sourceProjectID a.sourceBranch p.id
                 :: removeOps⟩

/-- The handler from the action/state policy check onward (lines 325-373 of
main.go), given the fetched merge request. -/
def handlerPolicyPhase (cfg : Config) (o : Oracle) (webhook : WebhookRequest)
    (mr : MergeRequest) : HandlerResult :=
  let a := webhook.attributes
  let removeOps := removeOpsFor a mr
  if a.action ≠ "open" ∧ a.action ≠ "reopen" ∧ a.action ≠ "update" then
    if a.state = "merged" ∧ ¬ cfg.shouldTriggerMerged then
      ⟨203, "ignored merged MR: '-trigger-merged' flag is disabled",
       [mrFetchCall a], removeOps⟩
    else if a.state ≠ "merged" then
      ⟨203, "ignored MR action: " ++ a.action, [mrFetchCall a], removeOps⟩
    else handlerTriggerPhase cfg o webhook removeOps
  else handlerTriggerPhase cfg o webhook removeOps

/-- Mirrors Go `handlerWebhook`.  `body` is the JSON-decode result of the
request body. -/
def handlerWebhook (cfg : Config) (o : Oracle) (method : String)
    (body : Except String WebhookRequest) : HandlerResult :=
  if method ≠ "POST" then
    ⟨405, "we support POST method only, but it was:" ++ method, [], []⟩
  else
    match body with
    | Except.error e =>
        ⟨415, "error decoding json body of request:" ++ e, [], []⟩
    | Except.ok webhook =>
      if webhook.objectKind ≠ "merge_request" then
        ⟨422, "we support merge_request objects only, but it was:"
           ++ webhook.objectKind, [], []⟩
      else
        let a := webhook.attributes
        match o.getMergeRequest a.sourceProjectID a.iid with
        | Except.error e =>
            ⟨500, "error getting details of the MR:" ++ e, [mrFetchCall a], []⟩
        | Except.ok mr =>
          if cfg.gitlabURL.data.isPrefixOf a.source.httpURL.data = false then
            ⟨404, a.source.httpURL ++ "is not a prefix of" ++ cfg.gitlabURL,
             [mrFetchCall a], []⟩
          else if a.source.httpURL ≠ a.target.httpURL then
            ⟨400, "forks are not supported", [mrFetchCall a], []⟩
          else handlerPolicyPhase cfg o webhook mr

/-- All remote calls of one handled event: the calls made before the response
plus the expansion of the deferred operations run after it. -/
def fullTrace (cfg : Config) (o : Oracle) (res : HandlerResult) : List ApiCall :=
  res.calls ++ res.deferredOps.flatMap (runDeferredOp cfg o)

/-- Whether a call creates a pipeline. -/
def isTriggerCall : ApiCall → Bool
  | ApiCall.triggerPipeline _ _ _ _ => true
  | _ => false

/-- The job ids for which a cancellation request appears in a trace. -/
def cancelledJobIds : List ApiCall → List Int
  | [] => []
  | ApiCall.cancelJob _ j :: rest => j :: cancelledJobIds rest
  | _ :: rest => cancelledJobIds rest

/-! ### Concrete fixtures for witnesses and counterexamples -/

/-- A project hosted at the configured GitLab instance. -/
def prjTest : Project := ⟨"proj", "http://gl/x", "http://gl/x.git"⟩

/-- A project at a different URL (a fork). -/
def prjFork : Project := ⟨"fork", "http://gl/y", "http://gl/y.git"⟩

/-- A concrete last commit of an event. -/
def commitTest : Commit := ⟨"sha1", "msg", none, "2018-01-01"⟩

/-- A concrete admissible merge-request event payload. -/
def attrsTest : ObjectAttributes :=
  { id := 11, iid := 3, targetBranch := "main", sourceBranch := "feature",
    sourceProjectID := 7, state := "opened", mergeStatus := "can_be_merged",
    source := prjTest, target := prjTest, lastCommit := commitTest,
    action := "open", workInProgress := false }

/-- A concrete admissible webhook request. -/
def webhookTest : WebhookRequest := ⟨"merge_request", attrsTest⟩

/-- A concrete configuration with no static trigger token. -/
def cfgTest : Config := ⟨"", "http://gl", false, ""⟩

/-- A concrete configuration with a static trigger token. -/
def cfgStatic : Config := ⟨"secret", "http://gl", false, ""⟩

/-- A concrete remote platform where every call succeeds: the event's commit
has no pipeline yet, trigger discovery finds one usable token, the trigger
creates pipeline 42, and the ref has running pipelines 41 and 42 whose pending
jobs are 101, 102 (pipeline 41) and 103 (pipeline 42). -/
def oTest : Oracle :=
  { getMergeRequest := fun _ _ => Except.ok ⟨false, false⟩
    getCommit := fun _ _ => Except.ok ⟨"sha1", "m", none, "t"⟩
    listTokens := fun _ => Except.ok [⟨1, "", "tok1", "d"⟩]
    createToken := fun _ => Except.ok ⟨2, "", "tok2", "auto"⟩
    runTrigger := fun _ _ _ _ => Except.ok ⟨42⟩
    getPipelines := fun _ _ => Except.ok [⟨41⟩, ⟨42⟩]
    getPendingBuilds := fun _ p =>
      Except.ok (if p = 41 then [⟨101, "a"⟩, ⟨102, "b"⟩] else [⟨103, "c"⟩])
    cancelBuild := fun _ j => Except.ok ⟨j, "x"⟩
    setRemoveSourceBranchForMR := fun _ _ => Except.ok ⟨true, true⟩ }

/-- The fork event: target project differs from the source project. -/
def webhookFork : WebhookRequest := ⟨"merge_request", { attrsTest with target := prjFork }⟩

/-- The admissible event with action `update`. -/
def webhookUpd : WebhookRequest := ⟨"merge_request", { attrsTest with action := "update" }⟩

/-- The event with action `close` and a non-merged state. -/
def webhookClose : WebhookRequest := ⟨"merge_request", { attrsTest with action := "close" }⟩

/-- The admissible event marked work-in-progress. -/
def webhookWip : WebhookRequest := ⟨"merge_request", { attrsTest with workInProgress := true }⟩

/-- An event for a just-merged MR (action `merge`, state `merged`). -/
def webhookMerged : WebhookRequest :=
  ⟨"merge_request", { attrsTest with state := "merged", action := "merge" }⟩

/-- Configuration that admits just-merged events. -/
def cfgMerged : Config := ⟨"", "http://gl", true, ""⟩

/-- Like `oTest` but the event's commit already has pipeline 42. -/
def oAlready : Oracle :=
  { oTest with getCommit := fun _ _ => Except.ok ⟨"sha1", "m", some ⟨42⟩, "t"⟩ }

/-- Like `oTest` but listing triggers fails. -/
def oListFail : Oracle := { oTest with listTokens := fun _ => Except.error "lfail" }

/-- Like `oTest` but trigger discovery returns only soft-deleted or empty
entries. -/
def oDeletedTokens : Oracle :=
  { oTest with listTokens := fun _ => Except.ok [⟨1, "2018", "tokD", "d"⟩, ⟨2, "", "", "e"⟩] }

/-- Like `oTest` but both listing and creating triggers fail. -/
def oCreateFail : Oracle :=
  { oTest with
    listTokens := fun _ => Except.error "lfail"
    createToken := fun _ => Except.error "cfail" }

/-- Like `oTest` but every best-effort call (sweep and MR update) fails. -/
def oBestEffortFail : Oracle :=
  { oTest with
    getPipelines := fun _ _ => Except.error "boom"
    getPendingBuilds := fun _ _ => Except.error "boom"
    cancelBuild := fun _ _ => Except.error "boom"
    setRemoveSourceBranchForMR := fun _ _ => Except.error "boom" }

/-- The pending jobs `oTest` reports for each pipeline. -/
def jobsOfTest : Pipeline → List Job :=
  fun p => if p.id = 41 then [⟨101, "a"⟩, ⟨102, "b"⟩] else [⟨103, "c"⟩]

/-! ### Helper lemmas -/

/-- The calls of one pipeline iteration of the sweep never create a pipeline. -/
theorem cancelPipelineJobs_no_trigger (o : Oracle) (pid : Int) (p : Pipeline) :
    ∀ call ∈ cancelPipelineJobs o pid p, isTriggerCall call = false := by
  intro call hc
  simp only [cancelPipelineJobs, List.mem_cons, List.mem_map] at hc
  rcases hc with h | ⟨b, _, h⟩ <;> subst h <;> rfl

/-- The sweep never creates a pipeline. -/
theorem cancelRedundantBuilds_no_trigger (o : Oracle) (pid : Int) (ref : String)
    (ex : Int) : ∀ call ∈ cancelRedundantBuilds o pid ref ex, isTriggerCall call = false := by
  intro call hc
  simp only [cancelRedundantBuilds, List.mem_cons, List.mem_flatMap] at hc
  rcases hc with h | ⟨p, _, h⟩
  · subst h; rfl
  · exact cancelPipelineJobs_no_trigger o pid p call h

/-- The remove-source-branch update never creates a pipeline. -/
theorem setRemoveSourceBranch_no_trigger (cfg : Config) (pid : Int) (iid : Int)
    (src : String) :
    ∀ call ∈ setRemoveSourceBranchForMR_AndReport cfg pid iid src,
      isTriggerCall call = false := by
  intro call hc
  unfold setRemoveSourceBranchForMR_AndReport at hc
  by_cases h : contains (cfg.removeSourceExceptions.splitOn ",") src = false <;>
    simp [h] at hc
  subst hc; rfl

/-- No deferred operation ever creates a pipeline. -/
theorem runDeferredOp_no_trigger (cfg : Config) (o : Oracle) (op : DeferredOp) :
    ∀ call ∈ runDeferredOp cfg o op, isTriggerCall call = false := by
  cases op with
  | cancelRedundant pid ref ex => exact cancelRedundantBuilds_no_trigger o pid ref ex
  | setRemoveSourceBranch pid iid src => exact setRemoveSourceBranch_no_trigger cfg pid iid src

/-- If none of the pre-response calls creates a pipeline, no call of the whole
event does. -/
theorem fullTrace_no_trigger (cfg : Config) (o : Oracle) (res : HandlerResult)
    (hcalls : ∀ call ∈ res.calls, isTriggerCall call = false) :
    ∀ call ∈ fullTrace cfg o res, isTriggerCall call = false := by
  intro call hc
  simp only [fullTrace, List.mem_append, List.mem_flatMap] at hc
  rcases hc with h | ⟨op, _, h⟩
  · exact hcalls call h
  · exact runDeferredOp_no_trigger cfg o op call h

/-- A POST request with a well-formed merge-request body whose MR fetch
succeeds and which passes the host and fork checks is handled by the policy
phase. -/
theorem handlerWebhook_to_policy (cfg : Config) (o : Oracle)
    (webhook : WebhookRequest) (mr : MergeRequest)
    (hkind : webhook.objectKind = "merge_request")
    (hmr : o.getMergeRequest webhook.attributes.sourceProjectID
      webhook.attributes.iid = Except.ok mr)
    (hpre : cfg.gitlabURL.data.isPrefixOf webhook.attributes.source.httpURL.data = true)
    (hfork : webhook.attributes.source.httpURL = webhook.attributes.target.httpURL) :
    handlerWebhook cfg o "POST" (Except.ok webhook) =
      handlerPolicyPhase cfg o webhook mr := by
  have h2 : ¬ (webhook.attributes.source.httpURL ≠ webhook.attributes.target.httpURL) := by
    simp [hfork]
  simp [handlerWebhook, hkind, hmr, hpre, h2]

/-- An event whose action is `open`, `reopen` or `update`, or whose state is
`merged` while merged triggering is enabled, passes the action/state policy. -/
theorem policyPhase_pass (cfg : Config) (o : Oracle) (webhook : WebhookRequest)
    (mr : MergeRequest)
    (haction : webhook.attributes.action = "open" ∨
      webhook.attributes.action = "reopen" ∨ webhook.attributes.action = "update" ∨
      (webhook.attributes.state = "merged" ∧ cfg.shouldTriggerMerged = true)) :
    handlerPolicyPhase cfg o webhook mr =
      handlerTriggerPhase cfg o webhook (removeOpsFor webhook.attributes mr) := by
  unfold handlerPolicyPhase
  rcases haction with h | h | h | ⟨h1, h2⟩
  · simp [h]
  · simp [h]
  · simp [h]
  · simp [h1, h2]

/-- The remove-source-branch defer is registered exactly for action `open`
and a not-yet-forced removal flag. -/
theorem mem_removeOpsFor (a : ObjectAttributes) (mr : MergeRequest) :
    (DeferredOp.setRemoveSourceBranch a.sourceProjectID a.iid a.sourceBranch ∈
      removeOpsFor a mr) ↔
      (a.action = "open" ∧ mr.forceRemoveSourceBranch = false) := by
  by_cases hC : a.action = "open" ∧ mr.forceRemoveSourceBranch ≠ true
  · simp [removeOpsFor, hC, hC.1]
  · simp only [removeOpsFor, if_neg hC, List.not_mem_nil, false_iff]
    intro h
    exact hC ⟨h.1, by simp [h.2]⟩

/-- The calls recorded by token resolution never create a pipeline. -/
theorem getTriggerToken_calls_no_trigger (cfg : Config) (o : Oracle) (pid : Int) :
    ∀ call ∈ (getTriggerToken cfg o pid).2, isTriggerCall call = false := by
  intro call hc
  unfold getTriggerToken at hc
  by_cases hs : cfg.triggerToken ≠ ""
  · simp [hs] at hc
  · simp only [hs, if_neg, ite_false] at hc
    rcases hfound : (match o.listTokens pid with
      | Except.ok toks => findUsableToken toks
      | Except.error _ => none) with _ | tk
    · rw [hfound] at hc
      rcases hcr : o.createToken pid with e | tk2 <;> rw [hcr] at hc <;>
        simp at hc <;> rcases hc with h | h <;> subst h <;> rfl
    · rw [hfound] at hc
      simp at hc
      subst hc; rfl

/-! ### Claim theorems -/

/-- C1: when the commit lookup finds that the event's last commit already has
an associated pipeline, the handler responds 200 with a message naming that
pipeline id, makes no pipeline-creation call anywhere in the event's handling,
and still schedules the redundant-build canceller with the existing pipeline
id as the exclusion key. -/
theorem already_pipelined_no_new_trigger (cfg : Config) (o : Oracle)
    (webhook : WebhookRequest) (mr : MergeRequest) (c : Commit) (p : Pipeline)
    (hkind : webhook.objectKind = "merge_request")
    (hmr : o.getMergeRequest webhook.attributes.sourceProjectID
      webhook.attributes.iid = Except.ok mr)
    (hpre : cfg.gitlabURL.data.isPrefixOf webhook.attributes.source.httpURL.data = true)
    (hfork : webhook.attributes.source.httpURL = webhook.attributes.target.httpURL)
    (haction : webhook.attributes.action = "open" ∨
      webhook.attributes.action = "reopen" ∨ webhook.attributes.action = "update" ∨
      (webhook.attributes.state = "merged" ∧ cfg.shouldTriggerMerged = true))
    (hwip : webhook.attributes.workInProgress = false)
    (hcommit : o.getCommit webhook.attributes.sourceProjectID
      webhook.attributes.lastCommit.id = Except.ok c)
    (hlp : c.lastPipeline = some p) :
    handlerWebhook cfg o "POST" (Except.ok webhook) =
      ⟨200,
       "commit: " ++ webhook.attributes.lastCommit.id ++
         " already has associated pipeline: " ++ toString p.id,
       [mrFetchCall webhook.attributes,
        ApiCall.getCommit webhook.attributes.sourceProjectID
          webhook.attributes.lastCommit.id],
       DeferredOp.cancelRedundant webhook.attributes.sourceProjectID
         webhook.attributes.sourceBranch p.id :: removeOpsFor webhook.attributes mr⟩ ∧
    ∀ call ∈ fullTrace cfg o (handlerWebhook cfg o "POST" (Except.ok webhook)),
      isTriggerCall call = false := by
  rw [handlerWebhook_to_policy cfg o webhook mr hkind hmr hpre hfork,
      policyPhase_pass cfg o webhook mr haction]
  simp only [handlerTriggerPhase, hwip, Bool.false_eq_true, if_neg, ite_false, hcommit, hlp]
  refine ⟨trivial, ?_⟩
  apply fullTrace_no_trigger
  intro call hc
  simp only [List.mem_cons, List.not_mem_nil, or_false] at hc
  rcases hc with h | h <;> subst h <;> rfl

/-- C7: an event with the work-in-progress flag set that reaches the
work-in-progress check is answered 202 and no pipeline-creation call is made
anywhere in its handling. -/
theorem wip_skips_trigger (cfg : Config) (o : Oracle)
    (webhook : WebhookRequest) (mr : MergeRequest)
    (hkind : webhook.objectKind = "merge_request")
    (hmr : o.getMergeRequest webhook.attributes.sourceProjectID
      webhook.attributes.iid = Except.ok mr)
    (hpre : cfg.gitlabURL.data.isPrefixOf webhook.attributes.source.httpURL.data = true)
    (hfork : webhook.attributes.source.httpURL = webhook.attributes.target.httpURL)
    (haction : webhook.attributes.action = "open" ∨
      webhook.attributes.action = "reopen" ∨ webhook.attributes.action = "update" ∨
      (webhook.attributes.state = "merged" ∧ cfg.shouldTriggerMerged = true))
    (hwip : webhook.attributes.workInProgress = true) :
    handlerWebhook cfg o "POST" (Except.ok webhook) =
      ⟨202, "Work In Progress - skipping build", [mrFetchCall webhook.attributes],
       removeOpsFor webhook.attributes mr⟩ ∧
    ∀ call ∈ fullTrace cfg o (handlerWebhook cfg o "POST" (Except.ok webhook)),
      isTriggerCall call = false := by
  rw [handlerWebhook_to_policy cfg o webhook mr hkind hmr hpre hfork,
      policyPhase_pass cfg o webhook mr haction]
  simp only [handlerTriggerPhase, hwip, ite_true]
  refine ⟨trivial, ?_⟩
  apply fullTrace_no_trigger
  intro call hc
  simp only [List.mem_cons, List.not_mem_nil, or_false] at hc
  subst hc; rfl

/-- C2 is false as stated: this concrete fork event is rejected with 400, yet
a remote call (the merge-request details fetch) was already made before the
response was decided. -/
theorem policy_reject_remote_call_cex :
    webhookFork.attributes.source.httpURL ≠ webhookFork.attributes.target.httpURL ∧
    (handlerWebhook cfgTest oTest "POST" (Except.ok webhookFork)).status = 400 ∧
    (handlerWebhook cfgTest oTest "POST" (Except.ok webhookFork)).calls =
      [ApiCall.getMergeRequest 7 3] ∧
    (handlerWebhook cfgTest oTest "POST" (Except.ok webhookFork)).calls ≠ [] := by
  refine ⟨by decide, ?_, ?_, by decide⟩ <;> rfl

/-- C2 (amended): a fork rejection, and a skip of action `close` with a
non-merged state, are decided with exactly one remote call made beforehand —
the merge-request details fetch — and schedule no deferred work; in
particular no trigger, commit, token, pipeline or job call occurs. -/
theorem policy_reject_only_mr_fetch (cfg : Config) (o : Oracle)
    (webhook : WebhookRequest) (mr : MergeRequest)
    (hkind : webhook.objectKind = "merge_request")
    (hmr : o.getMergeRequest webhook.attributes.sourceProjectID
      webhook.attributes.iid = Except.ok mr)
    (hpre : cfg.gitlabURL.data.isPrefixOf webhook.attributes.source.httpURL.data = true) :
    (webhook.attributes.source.httpURL ≠ webhook.attributes.target.httpURL →
      handlerWebhook cfg o "POST" (Except.ok webhook) =
        ⟨400, "forks are not supported", [mrFetchCall webhook.attributes], []⟩) ∧
    (webhook.attributes.source.httpURL = webhook.attributes.target.httpURL →
      webhook.attributes.action = "close" → webhook.attributes.state ≠ "merged" →
      handlerWebhook cfg o "POST" (Except.ok webhook) =
        ⟨203, "ignored MR action: " ++ webhook.attributes.action,
         [mrFetchCall webhook.attributes], []⟩) := by
  constructor
  · intro hne
    simp [handlerWebhook, hkind, hmr, hpre, hne]
  · intro hfork hact hstate
    rw [handlerWebhook_to_policy cfg o webhook mr hkind hmr hpre hfork]
    simp [handlerPolicyPhase, hact, hstate, removeOpsFor]

/-- In the trigger phase, the deferred remove-source-branch operation occurs
in the schedule exactly when it was in the registered defers, whatever the
outcome of the phase. -/
theorem triggerPhase_setRemove_mem (cfg : Config) (o : Oracle)
    (webhook : WebhookRequest) (removeOps : List DeferredOp)
    (pid iid : Int) (src : String) :
    (DeferredOp.setRemoveSourceBranch pid iid src ∈
        (handlerTriggerPhase cfg o webhook removeOps).deferredOps) ↔
      DeferredOp.setRemoveSourceBranch pid iid src ∈ removeOps := by
  unfold handlerTriggerPhase
  by_cases hw : webhook.attributes.workInProgress = true
  · simp [hw]
  · rw [if_neg hw]
    rcases hc : o.getCommit webhook.attributes.sourceProjectID
        webhook.attributes.lastCommit.id with e | c
    · simp [hc]
    · rcases hlp : c.lastPipeline with _ | p
      · rcases htk : (getTriggerToken cfg o webhook.attributes.sourceProjectID).1
            with e | tok
        · simp [hc, hlp, htk]
        · rcases htr : (runTrigger o webhook tok).1 with e | p2 <;>
            simp [hc, hlp, htk, htr]
      · simp [hc, hlp]

/-- C10: after the fork check passes, the deferred remove-source-branch update
is scheduled exactly when the event's action is `open` and the fetched MR's
force_remove_source_branch flag is still false — independently of how the
action, work-in-progress and idempotency checks later resolve, so it runs even
for skip, already-has-pipeline and internal-error outcomes, and never when the
flag is already true. -/
theorem remove_source_branch_scheduling (cfg : Config) (o : Oracle)
    (webhook : WebhookRequest) (mr : MergeRequest)
    (hkind : webhook.objectKind = "merge_request")
    (hmr : o.getMergeRequest webhook.attributes.sourceProjectID
      webhook.attributes.iid = Except.ok mr)
    (hpre : cfg.gitlabURL.data.isPrefixOf webhook.attributes.source.httpURL.data = true)
    (hfork : webhook.attributes.source.httpURL = webhook.attributes.target.httpURL) :
    (DeferredOp.setRemoveSourceBranch webhook.attributes.sourceProjectID
        webhook.attributes.iid webhook.attributes.sourceBranch ∈
      (handlerWebhook cfg o "POST" (Except.ok webhook)).deferredOps) ↔
      (webhook.attributes.action = "open" ∧ mr.forceRemoveSourceBranch = false) := by
  rw [handlerWebhook_to_policy cfg o webhook mr hkind hmr hpre hfork]
  unfold handlerPolicyPhase
  by_cases hA : webhook.attributes.action ≠ "open" ∧
      webhook.attributes.action ≠ "reopen" ∧ webhook.attributes.action ≠ "update"
  · rw [if_pos hA]
    by_cases hM : webhook.attributes.state = "merged" ∧ ¬ cfg.shouldTriggerMerged
    · rw [if_pos hM]
      exact mem_removeOpsFor webhook.attributes mr
    · rw [if_neg hM]
      by_cases hS : webhook.attributes.state ≠ "merged"
      · rw [if_pos hS]
        exact mem_removeOpsFor webhook.attributes mr
      · rw [if_neg hS, triggerPhase_setRemove_mem]
        exact mem_removeOpsFor webhook.attributes mr
  · rw [if_neg hA, triggerPhase_setRemove_mem]
    exact mem_removeOpsFor webhook.attributes mr

/-- Witness for C1: a concrete event whose commit already has pipeline 42 is
answered 200. -/
theorem already_pipelined_no_new_trigger_witness :
    webhookTest.attributes.workInProgress = false ∧
    (handlerWebhook cfgTest oAlready "POST" (Except.ok webhookTest)).status = 200 ∧
    DeferredOp.cancelRedundant 7 "feature" 42 ∈
      (handlerWebhook cfgTest oAlready "POST" (Except.ok webhookTest)).deferredOps := by
  have h := already_pipelined_no_new_trigger cfgTest oAlready webhookTest
    ⟨false, false⟩ ⟨"sha1", "m", some ⟨42⟩, "t"⟩ ⟨42⟩ rfl rfl (by decide) rfl
    (Or.inl rfl) rfl rfl rfl
  refine ⟨rfl, ?_, ?_⟩
  · rw [h.1]
  · rw [h.1]
    exact List.mem_cons_self _ _

/-- Witness for C2 (amended): the concrete fork event is rejected 400 and the
concrete close event is skipped 203, each with only the MR fetch made. -/
theorem policy_reject_only_mr_fetch_witness :
    webhookFork.attributes.source.httpURL ≠ webhookFork.attributes.target.httpURL ∧
    handlerWebhook cfgTest oTest "POST" (Except.ok webhookFork) =
      ⟨400, "forks are not supported", [mrFetchCall webhookFork.attributes], []⟩ ∧
    webhookClose.attributes.action = "close" ∧
    handlerWebhook cfgTest oTest "POST" (Except.ok webhookClose) =
      ⟨203, "ignored MR action: " ++ webhookClose.attributes.action,
       [mrFetchCall webhookClose.attributes], []⟩ := by
  refine ⟨by decide, ?_, rfl, ?_⟩
  · exact (policy_reject_only_mr_fetch cfgTest oTest webhookFork ⟨false, false⟩
      rfl rfl (by decide)).1 (by decide)
  · exact (policy_reject_only_mr_fetch cfgTest oTest webhookClose ⟨false, false⟩
      rfl rfl (by decide)).2 rfl rfl (by decide)

/-- Witness for C7: the concrete work-in-progress event is answered 202. -/
theorem wip_skips_trigger_witness :
    webhookWip.attributes.workInProgress = true ∧
    (handlerWebhook cfgTest oTest "POST" (Except.ok webhookWip)).status = 202 := by
  have h := wip_skips_trigger cfgTest oTest webhookWip ⟨false, false⟩ rfl rfl
    (by decide) rfl (Or.inl rfl) rfl
  refine ⟨rfl, ?_⟩
  rw [h.1]

/-- Witness for C10: the concrete `open` event with force_remove_source_branch
false has the update scheduled. -/
theorem remove_source_branch_scheduling_witness :
    webhookTest.attributes.action = "open" ∧
    DeferredOp.setRemoveSourceBranch 7 3 "feature" ∈
      (handlerWebhook cfgTest oTest "POST" (Except.ok webhookTest)).deferredOps := by
  refine ⟨rfl, ?_⟩
  exact (remove_source_branch_scheduling cfgTest oTest webhookTest ⟨false, false⟩
    rfl rfl (by decide) rfl).2 ⟨rfl, rfl⟩

/-- When the trigger phase reaches the trigger call (not WIP, commit has no
pipeline, token resolved), its pre-response calls are the MR fetch, the commit
fetch, the token-resolution calls, and the one trigger submission. -/
theorem triggerPhase_calls_shape (cfg : Config) (o : Oracle)
    (webhook : WebhookRequest) (removeOps : List DeferredOp) (c : Commit)
    (tok : String)
    (hwip : webhook.attributes.workInProgress = false)
    (hcommit : o.getCommit webhook.attributes.sourceProjectID
      webhook.attributes.lastCommit.id = Except.ok c)
    (hlp : c.lastPipeline = none)
    (htok : (getTriggerToken cfg o webhook.attributes.sourceProjectID).1 =
      Except.ok tok) :
    (handlerTriggerPhase cfg o webhook removeOps).calls =
      [mrFetchCall webhook.attributes,
       ApiCall.getCommit webhook.attributes.sourceProjectID
         webhook.attributes.lastCommit.id] ++
      (getTriggerToken cfg o webhook.attributes.sourceProjectID).2 ++
      [ApiCall.triggerPipeline webhook.attributes.sourceProjectID
        (pipelineRef webhook) tok (triggerVariables webhook)] := by
  simp only [handlerTriggerPhase, hwip, Bool.false_eq_true, if_neg, ite_false,
    hcommit, hlp, htok, runTrigger]
  rcases o.runTrigger webhook.attributes.sourceProjectID (pipelineRef webhook)
      tok (triggerVariables webhook) with e | p <;> simp

/-- C3 is false as stated: for this concrete triggered event with action
`update` and target clone URL `http://gl/x.git`, the submitted variable set
carries neither the action nor the target project's clone URL — its values
are exactly the marker, the two branch names, the two ids and the state. -/
theorem trigger_variables_cex :
    webhookUpd.attributes.action = "update" ∧
    webhookUpd.attributes.target.httpURL = "http://gl/x.git" ∧
    (handlerWebhook cfgTest oTest "POST" (Except.ok webhookUpd)).calls =
      [ApiCall.getMergeRequest 7 3, ApiCall.getCommit 7 "sha1",
       ApiCall.listTriggers 7,
       ApiCall.triggerPipeline 7 "feature" "tok1"
         [("CI_MERGE_REQUEST", "true"), ("MR_SOURCE_BRANCH", "feature"),
          ("MR_TARGET_BRANCH", "main"), ("MR_ID", "11"), ("MR_IID", "3"),
          ("MR_STATE", "opened")]] ∧
    (∀ entry ∈ [("CI_MERGE_REQUEST", "true"), ("MR_SOURCE_BRANCH", "feature"),
          ("MR_TARGET_BRANCH", "main"), ("MR_ID", "11"), ("MR_IID", "3"),
          ("MR_STATE", "opened")],
      Prod.snd entry ≠ "update" ∧ Prod.snd entry ≠ "http://gl/x.git") := by
  exact ⟨rfl, rfl, rfl, by decide⟩

/-- C3 (amended): every trigger request the handler submits carries exactly
the variables CI_MERGE_REQUEST=true, MR_SOURCE_BRANCH, MR_TARGET_BRANCH,
MR_ID, MR_IID and MR_STATE — the marker, the source and target branch names,
the two ids and the state; neither the action nor the target clone URL is
passed. -/
theorem trigger_variables_exact (cfg : Config) (o : Oracle)
    (webhook : WebhookRequest) (mr : MergeRequest) (c : Commit) (tok : String)
    (hkind : webhook.objectKind = "merge_request")
    (hmr : o.getMergeRequest webhook.attributes.sourceProjectID
      webhook.attributes.iid = Except.ok mr)
    (hpre : cfg.gitlabURL.data.isPrefixOf webhook.attributes.source.httpURL.data = true)
    (hfork : webhook.attributes.source.httpURL = webhook.attributes.target.httpURL)
    (haction : webhook.attributes.action = "open" ∨
      webhook.attributes.action = "reopen" ∨ webhook.attributes.action = "update" ∨
      (webhook.attributes.state = "merged" ∧ cfg.shouldTriggerMerged = true))
    (hwip : webhook.attributes.workInProgress = false)
    (hcommit : o.getCommit webhook.attributes.sourceProjectID
      webhook.attributes.lastCommit.id = Except.ok c)
    (hlp : c.lastPipeline = none)
    (htok : (getTriggerToken cfg o webhook.attributes.sourceProjectID).1 =
      Except.ok tok) :
    (ApiCall.triggerPipeline webhook.attributes.sourceProjectID
        (pipelineRef webhook) tok
        [("CI_MERGE_REQUEST", "true"),
         ("MR_SOURCE_BRANCH", webhook.attributes.sourceBranch),
         ("MR_TARGET_BRANCH", webhook.attributes.targetBranch),
         ("MR_ID", toString webhook.attributes.id),
         ("MR_IID", toString webhook.attributes.iid),
         ("MR_STATE", webhook.attributes.state)] ∈
      (handlerWebhook cfg o "POST" (Except.ok webhook)).calls) ∧
    (∀ pid ref tk vars, ApiCall.triggerPipeline pid ref tk vars ∈
        (handlerWebhook cfg o "POST" (Except.ok webhook)).calls →
      vars = [("CI_MERGE_REQUEST", "true"),
         ("MR_SOURCE_BRANCH", webhook.attributes.sourceBranch),
         ("MR_TARGET_BRANCH", webhook.attributes.targetBranch),
         ("MR_ID", toString webhook.attributes.id),
         ("MR_IID", toString webhook.attributes.iid),
         ("MR_STATE", webhook.attributes.state)]) := by
  rw [handlerWebhook_to_policy cfg o webhook mr hkind hmr hpre hfork,
      policyPhase_pass cfg o webhook mr haction,
      triggerPhase_calls_shape cfg o webhook _ c tok hwip hcommit hlp htok]
  constructor
  · simp [triggerVariables]
  · intro pid ref tk vars hmem
    simp only [List.append_assoc, List.mem_append, List.mem_cons,
      List.not_mem_nil, or_false, List.mem_singleton] at hmem
    rcases hmem with (h | h) | h | h
    · simp [mrFetchCall] at h
    · simp at h
    · have := getTriggerToken_calls_no_trigger cfg o
        webhook.attributes.sourceProjectID _ h
      simp [isTriggerCall] at this
    · simp only [ApiCall.triggerPipeline.injEq] at h
      simpa [triggerVariables] using h.2.2.2

/-- Witness for C3 (amended): the concrete admitted event submits exactly the
six MR_* variables. -/
theorem trigger_variables_exact_witness :
    (getTriggerToken cfgTest oTest 7).1 = Except.ok "tok1" ∧
    ApiCall.triggerPipeline 7 "feature" "tok1"
        [("CI_MERGE_REQUEST", "true"), ("MR_SOURCE_BRANCH", "feature"),
         ("MR_TARGET_BRANCH", "main"), ("MR_ID", "11"), ("MR_IID", "3"),
         ("MR_STATE", "opened")] ∈
      (handlerWebhook cfgTest oTest "POST" (Except.ok webhookTest)).calls := by
  refine ⟨rfl, ?_⟩
  exact (trigger_variables_exact cfgTest oTest webhookTest ⟨false, false⟩
    ⟨"sha1", "m", none, "t"⟩ "tok1" rfl rfl (by decide) rfl (Or.inl rfl)
    rfl rfl rfl rfl).1

/-- C4: for every admitted event that reaches the trigger submission, the ref
the trigger request is submitted against is the target branch when the event's
state is `merged` and the source branch otherwise; every trigger call of the
handling uses that ref. -/
theorem trigger_ref_selection (cfg : Config) (o : Oracle)
    (webhook : WebhookRequest) (mr : MergeRequest) (c : Commit) (tok : String)
    (hkind : webhook.objectKind = "merge_request")
    (hmr : o.getMergeRequest webhook.attributes.sourceProjectID
      webhook.attributes.iid = Except.ok mr)
    (hpre : cfg.gitlabURL.data.isPrefixOf webhook.attributes.source.httpURL.data = true)
    (hfork : webhook.attributes.source.httpURL = webhook.attributes.target.httpURL)
    (haction : webhook.attributes.action = "open" ∨
      webhook.attributes.action = "reopen" ∨ webhook.attributes.action = "update" ∨
      (webhook.attributes.state = "merged" ∧ cfg.shouldTriggerMerged = true))
    (hwip : webhook.attributes.workInProgress = false)
    (hcommit : o.getCommit webhook.attributes.sourceProjectID
      webhook.attributes.lastCommit.id = Except.ok c)
    (hlp : c.lastPipeline = none)
    (htok : (getTriggerToken cfg o webhook.attributes.sourceProjectID).1 =
      Except.ok tok) :
    (ApiCall.triggerPipeline webhook.attributes.sourceProjectID
        (if webhook.attributes.state = "merged" then webhook.attributes.targetBranch
         else webhook.attributes.sourceBranch) tok (triggerVariables webhook) ∈
      (handlerWebhook cfg o "POST" (Except.ok webhook)).calls) ∧
    (∀ pid ref tk vars, ApiCall.triggerPipeline pid ref tk vars ∈
        (handlerWebhook cfg o "POST" (Except.ok webhook)).calls →
      ref = if webhook.attributes.state = "merged" then webhook.attributes.targetBranch
            else webhook.attributes.sourceBranch) := by
  rw [handlerWebhook_to_policy cfg o webhook mr hkind hmr hpre hfork,
      policyPhase_pass cfg o webhook mr haction,
      triggerPhase_calls_shape cfg o webhook _ c tok hwip hcommit hlp htok]
  constructor
  · simp [pipelineRef]
  · intro pid ref tk vars hmem
    simp only [List.append_assoc, List.mem_append, List.mem_cons,
      List.not_mem_nil, or_false, List.mem_singleton] at hmem
    rcases hmem with (h | h) | h | h
    · simp [mrFetchCall] at h
    · simp at h
    · have := getTriggerToken_calls_no_trigger cfg o
        webhook.attributes.sourceProjectID _ h
      simp [isTriggerCall] at this
    · simp only [ApiCall.triggerPipeline.injEq] at h
      simpa [pipelineRef] using h.2.1

/-- Witness for C4: the concrete just-merged event triggers against the target
branch `main`, not the source branch. -/
theorem trigger_ref_selection_witness :
    webhookMerged.attributes.state = "merged" ∧
    ApiCall.triggerPipeline 7 "main" "tok1" (triggerVariables webhookMerged) ∈
      (handlerWebhook cfgMerged oTest "POST" (Except.ok webhookMerged)).calls := by
  refine ⟨rfl, ?_⟩
  exact (trigger_ref_selection cfgMerged oTest webhookMerged ⟨false, false⟩
    ⟨"sha1", "m", none, "t"⟩ "tok1" rfl rfl (by decide) rfl
    (Or.inr (Or.inr (Or.inr ⟨rfl, rfl⟩))) rfl rfl rfl rfl).1

/-- The token-selection loop picks exactly the first entry whose soft-deletion
marker is empty and whose token string is non-empty. -/
theorem findUsableToken_eq_find (l : List TokenResponse) :
    findUsableToken l = l.find? (fun t => t.deletedAt == "" && t.token != "") := by
  induction l with
  | nil => rfl
  | cons tk rest ih =>
    by_cases h1 : tk.deletedAt = ""
    · by_cases h2 : tk.token = ""
      · rw [findUsableToken, if_pos (Or.inr h2), List.find?_cons_of_neg, ih]
        simp [h1, h2]
      · rw [findUsableToken, if_neg, List.find?_cons_of_pos]
        · simp [h1, h2]
        · simp [h1, h2]
    · rw [findUsableToken, if_pos (Or.inl h1), List.find?_cons_of_neg, ih]
      simp [h1]

/-- C5: trigger-token resolution: a non-empty statically configured token is
returned with no remote calls; otherwise the project's triggers are listed and
the first entry with an empty soft-deletion marker and a non-empty token
string is returned; when the listing fails or yields no usable entry, a
trigger is created and its token returned; a creation failure is returned as
the error, and the handler surfaces a token-resolution error as HTTP 500. -/
theorem trigger_token_resolution (cfg : Config) (o : Oracle) (pid : Int) :
    (cfg.triggerToken ≠ "" →
      getTriggerToken cfg o pid = (Except.ok cfg.triggerToken, [])) ∧
    (∀ toks tk, cfg.triggerToken = "" → o.listTokens pid = Except.ok toks →
      toks.find? (fun t => t.deletedAt == "" && t.token != "") = some tk →
      getTriggerToken cfg o pid =
        (Except.ok tk.token, [ApiCall.listTriggers pid])) ∧
    (∀ tk, cfg.triggerToken = "" →
      ((∃ e, o.listTokens pid = Except.error e) ∨
        (∃ toks, o.listTokens pid = Except.ok toks ∧
          toks.find? (fun t => t.deletedAt == "" && t.token != "") = none)) →
      o.createToken pid = Except.ok tk →
      getTriggerToken cfg o pid =
        (Except.ok tk.token,
         [ApiCall.listTriggers pid, ApiCall.createTrigger pid])) ∧
    (∀ e, cfg.triggerToken = "" →
      ((∃ e2, o.listTokens pid = Except.error e2) ∨
        (∃ toks, o.listTokens pid = Except.ok toks ∧
          toks.find? (fun t => t.deletedAt == "" && t.token != "") = none)) →
      o.createToken pid = Except.error e →
      getTriggerToken cfg o pid =
        (Except.error e,
         [ApiCall.listTriggers pid, ApiCall.createTrigger pid])) ∧
    (∀ webhook mr c e,
      webhook.objectKind = "merge_request" →
      o.getMergeRequest webhook.attributes.sourceProjectID
        webhook.attributes.iid = Except.ok mr →
      cfg.gitlabURL.data.isPrefixOf webhook.attributes.source.httpURL.data = true →
      webhook.attributes.source.httpURL = webhook.attributes.target.httpURL →
      (webhook.attributes.action = "open" ∨ webhook.attributes.action = "reopen" ∨
        webhook.attributes.action = "update" ∨
        (webhook.attributes.state = "merged" ∧ cfg.shouldTriggerMerged = true)) →
      webhook.attributes.workInProgress = false →
      o.getCommit webhook.attributes.sourceProjectID
        webhook.attributes.lastCommit.id = Except.ok c →
      c.lastPipeline = none →
      (getTriggerToken cfg o webhook.attributes.sourceProjectID).1 =
        Except.error e →
      (handlerWebhook cfg o "POST" (Except.ok webhook)).status = 500 ∧
      (handlerWebhook cfg o "POST" (Except.ok webhook)).message =
        "error getting trigger token - " ++ e) := by
  refine ⟨?_, ?_, ?_, ?_, ?_⟩
  · intro h
    rw [getTriggerToken, if_pos h]
  · intro toks tk h0 hlist hfind
    rw [getTriggerToken, if_neg (by simp [h0])]
    simp [hlist, findUsableToken_eq_find, hfind]
  · intro tk h0 hnone hcreate
    rw [getTriggerToken, if_neg (by simp [h0])]
    rcases hnone with ⟨e, he⟩ | ⟨toks, hlist, hfind⟩
    · simp [he, hcreate]
    · simp [hlist, findUsableToken_eq_find, hfind, hcreate]
  · intro e h0 hnone hcreate
    rw [getTriggerToken, if_neg (by simp [h0])]
    rcases hnone with ⟨e2, he⟩ | ⟨toks, hlist, hfind⟩
    · simp [he, hcreate]
    · simp [hlist, findUsableToken_eq_find, hfind, hcreate]
  · intro webhook mr c e hkind hmr hpre hfork haction hwip hcommit hlp herr
    rw [handlerWebhook_to_policy cfg o webhook mr hkind hmr hpre hfork,
        policyPhase_pass cfg o webhook mr haction]
    simp only [handlerTriggerPhase, hwip, Bool.false_eq_true, if_neg, ite_false,
      hcommit, hlp, herr]
    exact ⟨trivial, trivial⟩

/-- Witness for C5, exercising every branch of the resolution algorithm at
concrete inputs: the static token; discovery of `tok1`; creation after an
unusable listing; creation after a failed listing; a fatal creation failure;
and the handler surfacing that failure as HTTP 500. -/
theorem trigger_token_resolution_witness :
    getTriggerToken cfgStatic oTest 7 = (Except.ok "secret", []) ∧
    getTriggerToken cfgTest oTest 7 =
      (Except.ok "tok1", [ApiCall.listTriggers 7]) ∧
    getTriggerToken cfgTest oDeletedTokens 7 =
      (Except.ok "tok2", [ApiCall.listTriggers 7, ApiCall.createTrigger 7]) ∧
    getTriggerToken cfgTest oListFail 7 =
      (Except.ok "tok2", [ApiCall.listTriggers 7, ApiCall.createTrigger 7]) ∧
    getTriggerToken cfgTest oCreateFail 7 =
      (Except.error "cfail", [ApiCall.listTriggers 7, ApiCall.createTrigger 7]) ∧
    (handlerWebhook cfgTest oCreateFail "POST" (Except.ok webhookTest)).status = 500 := by
  refine ⟨?_, ?_, ?_, ?_, ?_, ?_⟩
  · exact (trigger_token_resolution cfgStatic oTest 7).1 (by decide)
  · exact (trigger_token_resolution cfgTest oTest 7).2.1
      [⟨1, "", "tok1", "d"⟩] ⟨1, "", "tok1", "d"⟩ rfl rfl rfl
  · exact (trigger_token_resolution cfgTest oDeletedTokens 7).2.2.1
      ⟨2, "", "tok2", "auto"⟩ rfl
      (Or.inr ⟨[⟨1, "2018", "tokD", "d"⟩, ⟨2, "", "", "e"⟩], rfl, rfl⟩) rfl
  · exact (trigger_token_resolution cfgTest oListFail 7).2.2.1
      ⟨2, "", "tok2", "auto"⟩ rfl (Or.inl ⟨"lfail", rfl⟩) rfl
  · exact (trigger_token_resolution cfgTest oCreateFail 7).2.2.2.1
      "cfail" rfl (Or.inl ⟨"lfail", rfl⟩) rfl
  · exact ((trigger_token_resolution cfgTest oCreateFail 7).2.2.2.2
      webhookTest ⟨false, false⟩ ⟨"sha1", "m", none, "t"⟩ "cfail"
      rfl rfl (by decide) rfl (Or.inl rfl) rfl rfl rfl rfl).1

/-- `cancelledJobIds` distributes over list append. -/
theorem cancelledJobIds_append (l1 l2 : List ApiCall) :
    cancelledJobIds (l1 ++ l2) = cancelledJobIds l1 ++ cancelledJobIds l2 := by
  induction l1 with
  | nil => rfl
  | cons c rest ih => cases c <;> simp [cancelledJobIds, ih]

/-- The cancellation requests built from a job list target exactly those jobs. -/
theorem cancelledJobIds_cancel_map (pid : Int) (js : List Job) :
    cancelledJobIds (js.map (fun b => ApiCall.cancelJob pid b.id)) =
      js.map Job.id := by
  induction js with
  | nil => rfl
  | cons j rest ih => simp [cancelledJobIds, ih]

/-- Over pipelines whose pending-job listing succeeds, the sweep's
cancellations are exactly the listed jobs, in order. -/
theorem cancelledJobIds_flatMap_ok (o : Oracle) (pid : Int)
    (jobsOf : Pipeline → List Job) (l : List Pipeline)
    (h : ∀ p ∈ l, o.getPendingBuilds pid p.id = Except.ok (jobsOf p)) :
    cancelledJobIds (l.flatMap (cancelPipelineJobs o pid)) =
      (l.flatMap jobsOf).map Job.id := by
  induction l with
  | nil => rfl
  | cons p rest ih =>
    have hp := h p (by simp)
    have hrest : ∀ q ∈ rest, o.getPendingBuilds pid q.id = Except.ok (jobsOf q) :=
      fun q hq => h q (by simp [hq])
    simp only [List.flatMap_cons, cancelledJobIds_append, ih hrest,
      cancelPipelineJobs, hp, List.map_append]
    simp [cancelledJobIds, cancelledJobIds_cancel_map]

/-- C6: a sweep over returned running pipelines issues cancellation requests
exactly for the pending jobs of the pipelines whose id differs from the
excluded pipeline id, and the excluded pipeline's jobs are never listed, so no
job of the excluded pipeline is cancelled. -/
theorem cancel_redundant_exact (o : Oracle) (pid : Int) (ref : String)
    (ex : Int) (ps : List Pipeline) (jobsOf : Pipeline → List Job)
    (hps : o.getPipelines pid ref = Except.ok ps)
    (hjobs : ∀ p ∈ ps, p.id ≠ ex →
      o.getPendingBuilds pid p.id = Except.ok (jobsOf p)) :
    cancelledJobIds (cancelRedundantBuilds o pid ref ex) =
      ((ps.filter (fun p => p.id ≠ ex)).flatMap jobsOf).map Job.id ∧
    ∀ pipelineID, ApiCall.listPendingJobs pid pipelineID ∈
        cancelRedundantBuilds o pid ref ex → pipelineID ≠ ex := by
  constructor
  · rw [cancelRedundantBuilds]
    simp only [hps]
    rw [show cancelledJobIds (ApiCall.listPipelines pid ref ::
          (ps.filter (fun p => p.id ≠ ex)).flatMap (cancelPipelineJobs o pid)) =
        cancelledJobIds ((ps.filter (fun p => p.id ≠ ex)).flatMap
          (cancelPipelineJobs o pid)) from rfl]
    exact cancelledJobIds_flatMap_ok o pid jobsOf _
      (fun p hp => hjobs p (List.mem_of_mem_filter hp)
        (by simpa using List.of_mem_filter hp))
  · intro pipelineID hmem
    rw [cancelRedundantBuilds] at hmem
    simp only [hps, List.mem_cons, List.mem_flatMap] at hmem
    rcases hmem with h | ⟨p, hp, h⟩
    · simp at h
    · have hpne : p.id ≠ ex := by simpa using List.of_mem_filter hp
      simp only [cancelPipelineJobs, List.mem_cons, List.mem_map] at h
      rcases h with h | ⟨b, _, h⟩
      · cases h; exact hpne
      · cases h

/-- Witness for C6: with running pipelines 41 and 42 and the new pipeline 42
excluded, exactly the two pending jobs 101 and 102 of pipeline 41 are
cancelled. -/
theorem cancel_redundant_exact_witness :
    oTest.getPipelines 7 "feature" = Except.ok [⟨41⟩, ⟨42⟩] ∧
    cancelledJobIds (cancelRedundantBuilds oTest 7 "feature" 42) = [101, 102] ∧
    ∀ pipelineID, ApiCall.listPendingJobs 7 pipelineID ∈
        cancelRedundantBuilds oTest 7 "feature" 42 → pipelineID ≠ 42 := by
  have h := cancel_redundant_exact oTest 7 "feature" 42 [⟨41⟩, ⟨42⟩] jobsOfTest
    rfl (by intro p hp hne; rfl)
  exact ⟨rfl, by rw [h.1]; rfl, h.2⟩

/-- Token resolution only consults the listing and creation endpoints. -/
theorem getTriggerToken_congr (cfg : Config) (o1 o2 : Oracle)
    (hl : o1.listTokens = o2.listTokens) (hcr : o1.createToken = o2.createToken)
    (pid : Int) : getTriggerToken cfg o1 pid = getTriggerToken cfg o2 pid := by
  unfold getTriggerToken
  rw [hl, hcr]

/-- The trigger phase only consults the commit, token and trigger endpoints. -/
theorem handlerTriggerPhase_congr (cfg : Config) (o1 o2 : Oracle)
    (hc : o1.getCommit = o2.getCommit) (hl : o1.listTokens = o2.listTokens)
    (hcr : o1.createToken = o2.createToken) (ht : o1.runTrigger = o2.runTrigger)
    (webhook : WebhookRequest) (removeOps : List DeferredOp) :
    handlerTriggerPhase cfg o1 webhook removeOps =
      handlerTriggerPhase cfg o2 webhook removeOps := by
  unfold handlerTriggerPhase runTrigger
  rw [hc, ht]
  simp only [getTriggerToken_congr cfg o1 o2 hl hcr]

/-- The policy phase only consults the commit, token and trigger endpoints. -/
theorem handlerPolicyPhase_congr (cfg : Config) (o1 o2 : Oracle)
    (hc : o1.getCommit = o2.getCommit) (hl : o1.listTokens = o2.listTokens)
    (hcr : o1.createToken = o2.createToken) (ht : o1.runTrigger = o2.runTrigger)
    (webhook : WebhookRequest) (mr : MergeRequest) :
    handlerPolicyPhase cfg o1 webhook mr = handlerPolicyPhase cfg o2 webhook mr := by
  unfold handlerPolicyPhase
  simp only [handlerTriggerPhase_congr cfg o1 o2 hc hl hcr ht]

/-- C8: best-effort failures are isolated.  First, the response — status,
message, pre-response calls and the deferred schedule — is a function of the
primary-path endpoints only (MR fetch, commit fetch, token listing/creation,
trigger): changing the platform's behavior on pipeline listing, pending-job
listing, job cancellation or the MR update changes nothing in it.  Second,
within one sweep, every job returned by a successful pending-job listing of a
non-excluded pipeline gets its cancellation request, regardless of any failure
elsewhere in the sweep. -/
theorem best_effort_isolation (cfg : Config) (o1 o2 : Oracle) (method : String)
    (body : Except String WebhookRequest)
    (hmr : o1.getMergeRequest = o2.getMergeRequest)
    (hc : o1.getCommit = o2.getCommit)
    (hl : o1.listTokens = o2.listTokens)
    (hcr : o1.createToken = o2.createToken)
    (ht : o1.runTrigger = o2.runTrigger) :
    handlerWebhook cfg o1 method body = handlerWebhook cfg o2 method body ∧
    (∀ pid ref ex ps p js,
      o1.getPipelines pid ref = Except.ok ps → p ∈ ps → p.id ≠ ex →
      o1.getPendingBuilds pid p.id = Except.ok js →
      ∀ j ∈ js, ApiCall.cancelJob pid j.id ∈ cancelRedundantBuilds o1 pid ref ex) := by
  constructor
  · unfold handlerWebhook
    rw [hmr]
    rcases body with e | webhook
    · rfl
    · simp only [handlerPolicyPhase_congr cfg o1 o2 hc hl hcr ht]
  · intro pid ref ex ps p js hps hp hne hjs j hj
    rw [cancelRedundantBuilds]
    simp only [hps, List.mem_cons, List.mem_flatMap]
    refine Or.inr ⟨p, List.mem_filter_of_mem hp (by simpa using hne), ?_⟩
    simp only [cancelPipelineJobs, hjs, List.mem_cons, List.mem_map]
    exact Or.inr ⟨j, hj, rfl⟩

/-- Witness for C8: making every best-effort endpoint fail leaves the concrete
event's entire response unchanged, and in `oTest`'s sweep excluding pipeline
42 the successfully listed job 101 of pipeline 41 is cancelled. -/
theorem best_effort_isolation_witness :
    handlerWebhook cfgTest oTest "POST" (Except.ok webhookTest) =
      handlerWebhook cfgTest oBestEffortFail "POST" (Except.ok webhookTest) ∧
    ApiCall.cancelJob 7 101 ∈ cancelRedundantBuilds oTest 7 "feature" 42 := by
  have h := best_effort_isolation cfgTest oTest oBestEffortFail "POST"
    (Except.ok webhookTest) rfl rfl rfl rfl rfl
  exact ⟨h.1, h.2 7 "feature" 42 [⟨41⟩, ⟨42⟩] ⟨41⟩ [⟨101, "a"⟩, ⟨102, "b"⟩]
    rfl (by simp) (by decide) rfl ⟨101, "a"⟩ (by simp)⟩

/-- C9: both scheduled canceller invocations use the event's source branch as
the swept ref — in the already-has-pipeline outcome and in the
pipeline-created outcome — even though for a merged state the new pipeline is
triggered on the target branch; in that case the swept ref differs from the
ref the excluded pipeline was created on whenever the two branches differ. -/
theorem canceller_ref_source_branch (cfg : Config) (o : Oracle)
    (webhook : WebhookRequest) (mr : MergeRequest)
    (hkind : webhook.objectKind = "merge_request")
    (hmr : o.getMergeRequest webhook.attributes.sourceProjectID
      webhook.attributes.iid = Except.ok mr)
    (hpre : cfg.gitlabURL.data.isPrefixOf webhook.attributes.source.httpURL.data = true)
    (hfork : webhook.attributes.source.httpURL = webhook.attributes.target.httpURL)
    (haction : webhook.attributes.action = "open" ∨
      webhook.attributes.action = "reopen" ∨ webhook.attributes.action = "update" ∨
      (webhook.attributes.state = "merged" ∧ cfg.shouldTriggerMerged = true))
    (hwip : webhook.attributes.workInProgress = false) :
    (∀ c p, o.getCommit webhook.attributes.sourceProjectID
        webhook.attributes.lastCommit.id = Except.ok c →
      c.lastPipeline = some p →
      DeferredOp.cancelRedundant webhook.attributes.sourceProjectID
          webhook.attributes.sourceBranch p.id ∈
        (handlerWebhook cfg o "POST" (Except.ok webhook)).deferredOps) ∧
    (∀ c tok p, o.getCommit webhook.attributes.sourceProjectID
        webhook.attributes.lastCommit.id = Except.ok c →
      c.lastPipeline = none →
      (getTriggerToken cfg o webhook.attributes.sourceProjectID).1 = Except.ok tok →
      o.runTrigger webhook.attributes.sourceProjectID (pipelineRef webhook) tok
        (triggerVariables webhook) = Except.ok p →
      DeferredOp.cancelRedundant webhook.attributes.sourceProjectID
          webhook.attributes.sourceBranch p.id ∈
        (handlerWebhook cfg o "POST" (Except.ok webhook)).deferredOps ∧
      ApiCall.triggerPipeline webhook.attributes.sourceProjectID
          (pipelineRef webhook) tok (triggerVariables webhook) ∈
        (handlerWebhook cfg o "POST" (Except.ok webhook)).calls) ∧
    (webhook.attributes.state = "merged" →
      pipelineRef webhook = webhook.attributes.targetBranch ∧
      (webhook.attributes.sourceBranch ≠ webhook.attributes.targetBranch →
        webhook.attributes.sourceBranch ≠ pipelineRef webhook)) := by
  rw [handlerWebhook_to_policy cfg o webhook mr hkind hmr hpre hfork,
      policyPhase_pass cfg o webhook mr haction]
  refine ⟨?_, ?_, ?_⟩
  · intro c p hc hlp
    simp only [handlerTriggerPhase, hwip, Bool.false_eq_true, if_neg, ite_false,
      hc, hlp]
    exact List.mem_cons_self _ _
  · intro c tok p hc hlp htok htr
    simp only [handlerTriggerPhase, hwip, Bool.false_eq_true, if_neg, ite_false,
      hc, hlp, htok, runTrigger, htr]
    refine ⟨List.mem_cons_self _ _, ?_⟩
    simp
  · intro hmerged
    refine ⟨by simp [pipelineRef, hmerged], ?_⟩
    intro hne
    rw [show pipelineRef webhook = webhook.attributes.targetBranch from
      by simp [pipelineRef, hmerged]]
    exact hne

/-- Witness for C9: for the concrete just-merged event the pipeline is
triggered on target branch `main` while the canceller is scheduled to sweep
source branch `feature`, excluding the new pipeline 42. -/
theorem canceller_ref_source_branch_witness :
    webhookMerged.attributes.state = "merged" ∧
    pipelineRef webhookMerged = "main" ∧
    webhookMerged.attributes.sourceBranch = "feature" ∧
    DeferredOp.cancelRedundant 7 "feature" 42 ∈
      (handlerWebhook cfgMerged oTest "POST" (Except.ok webhookMerged)).deferredOps := by
  have h := canceller_ref_source_branch cfgMerged oTest webhookMerged
    ⟨false, false⟩ rfl rfl (by decide) rfl
    (Or.inr (Or.inr (Or.inr ⟨rfl, rfl⟩))) rfl
  refine ⟨rfl, rfl, rfl, ?_⟩
  exact (h.2.1 ⟨"sha1", "m", none, "t"⟩ "tok1" ⟨42⟩ rfl rfl rfl rfl).1
